import Mathlib

/-!
Shallow embedding of the MediScope risk-scoring and fleet-aggregation
pipeline (`ai_predictor.py`, `utils.py`), together with theorems settling
the specification claims.

Modelling conventions:
* Python `float` values (temperature, `random.random()` draws, timestamps)
  are embedded as `ℚ`; all inputs the claims exercise are exactly
  representable, so no rounding behaviour is lost.
* Timestamps are rationals measured in days; `datetime.now()` is an
  injected parameter `now`, and `(now - admission).days` /
  `datetime.date()` are `Rat.floor` (Python truncates toward -∞).
* The two `random.random()` draws in the level perturbation are injected
  inputs `r1 r2 : ℚ` in `[0, 1)`.
* Python dicts built by insertion are association lists
  (`List (String × _)`) preserving insertion order.
* `sum()` over a list that may contain `None` is `pySum`, which fails
  (returns `none`, the `TypeError`) as soon as a `None` is summed.
* A record key that may be absent is an `Option`; `risk_score` may be
  present-but-None, hence `Option (Option ℚ)`.
* Fields never read by the embedded functions (`patient_id`, `gender`,
  `diagnosis`, `respiratory_rate`, vitals timestamp, `last_updated`) are
  omitted from the record types.
-/

namespace MediScope

/-- Risk levels, ordered `Critical > High > Medium > Low`. -/
inductive RiskLevel where
| Critical
| High
| Medium
| Low
deriving DecidableEq, BEq, Repr

/-- The `adjustments` list of `ai_predictor.calculate_risk_score`:
`["Critical", "High", "Medium", "Low"]`. -/
def adjustments : List RiskLevel :=
[RiskLevel.Critical, RiskLevel.High, RiskLevel.Medium, RiskLevel.Low]

/-- Nested `vitals` record (only the fields the scorer reads). -/
structure Vitals where
heart_rate : Int
blood_pressure : String
temperature : ℚ
oxygen_saturation : Int
deriving DecidableEq, Repr

/-- A patient record, restricted to the fields read by the embedded
pipeline. `discharge_date` is `none` when the Python value is `None`;
`risk_level` is `none` when the key is absent; `risk_score` is `none`
when the key is absent and `some none` when present with value `None`
(as `patient_generator.generate_patient` produces). -/
structure Patient where
age : Int
vitals : Vitals
department : String
admission_date : ℚ
discharge_date : Option ℚ
status : String
first_name : String
last_name : String
medical_record_number : String
room : String
risk_level : Option String
risk_score : Option (Option ℚ)
deriving DecidableEq, Repr

/-- The seven factor sub-scores of a risk assessment. -/
structure Factors where
age_score : Int
heart_rate_score : Int
blood_pressure_score : Int
temperature_score : Int
oxygen_score : Int
department_score : Int
length_of_stay_score : Int
deriving DecidableEq, Repr

/-- Result of `calculate_risk_score` (minus the `last_updated` timestamp). -/
structure RiskAssessment where
risk_level : RiskLevel
risk_score : Int
factors : Factors
deriving DecidableEq, Repr

/-- `int(patient['vitals']['blood_pressure'].split('/')[0])`: parse the
systolic component; `none` models the `ValueError` on an unparsable string. -/
def parseSystolic (bp : String) : Option Int :=
((bp.splitOn "/").headD "").toInt?

/-- Age factor: `>75→3; >60→2; >40→1; else→0`. -/
def ageScore (age : Int) : Int :=
if age > 75 then 3 else if age > 60 then 2 else if age > 40 then 1 else 0

/-- Heart-rate factor: `>120 or <50→3; >100 or <60→2; else→0`. -/
def hrScore (heart_rate : Int) : Int :=
if heart_rate > 120 ∨ heart_rate < 50 then 3
else if heart_rate > 100 ∨ heart_rate < 60 then 2
else 0

/-- Blood-pressure (systolic) factor: `>180 or <90→3; >140 or <100→2; else→0`. -/
def bpScore (bp_systolic : Int) : Int :=
if bp_systolic > 180 ∨ bp_systolic < 90 then 3
else if bp_systolic > 140 ∨ bp_systolic < 100 then 2
else 0

/-- Temperature factor: `>38.5 or <35.5→2; >37.8 or <36.0→1; else→0`. -/
def tempScore (temp : ℚ) : Int :=
if temp > 38.5 ∨ temp < 35.5 then 2
else if temp > 37.8 ∨ temp < 36.0 then 1
else 0

/-- Oxygen-saturation factor: `<90→3; <94→1; else→0`. -/
def spo2Score (spo2 : Int) : Int :=
if spo2 < 90 then 3 else if spo2 < 94 then 1 else 0

/-- `high_risk_depts` of `ai_predictor.py`. -/
def high_risk_depts : List String :=
["Intensive Care Unit (ICU)", "Cardiology", "Neurology"]

/-- `medium_risk_depts` of `ai_predictor.py`. -/
def medium_risk_depts : List String :=
["Emergency", "Oncology", "Surgery"]

/-- Department factor: high-risk department→2; medium-risk→1; else→0. -/
def deptScore (department : String) : Int :=
if department ∈ high_risk_depts then 2
else if department ∈ medium_risk_depts then 1
else 0

/-- Length-of-stay factor on `days_in_hospital`: `>14→2; >7→1; else→0`. -/
def losScore (days_in_hospital : Int) : Int :=
if days_in_hospital > 14 then 2 else if days_in_hospital > 7 then 1 else 0

/-- The level-threshold step of `calculate_risk_score`:
`≥10→Critical; ≥7→High; ≥4→Medium; else→Low` on the unclamped sum. -/
def levelOfScore (score : Int) : RiskLevel :=
if score ≥ 10 then RiskLevel.Critical
else if score ≥ 7 then RiskLevel.High
else if score ≥ 4 then RiskLevel.Medium
else RiskLevel.Low

/-- The random level perturbation of `calculate_risk_score`
(lines 105-112 of `ai_predictor.py`), with the two `random.random()`
draws injected as `r1 r2`:
`if random.random() < 0.1:` then, with
`current_idx = adjustments.index(risk_level)`,
`if current_idx > 0 and random.random() < 0.5: risk_level = adjustments[current_idx - 1]`
`elif current_idx < len(adjustments) - 1: risk_level = adjustments[current_idx + 1]`. -/
def perturbLevel (r1 r2 : ℚ) (risk_level : RiskLevel) : RiskLevel :=
if r1 < 0.1 then
  let current_idx := adjustments.indexOf risk_level
  if current_idx > 0 ∧ r2 < 0.5 then adjustments.getD (current_idx - 1) risk_level
  else if current_idx < adjustments.length - 1 then
    adjustments.getD (current_idx + 1) risk_level
  else risk_level
else risk_level

/-- One step toward `Critical` in the order `Critical > High > Medium > Low`;
a no-op at `Critical`. -/
def stepTowardCritical : RiskLevel → RiskLevel
| RiskLevel.Critical => RiskLevel.Critical
| RiskLevel.High => RiskLevel.Critical
| RiskLevel.Medium => RiskLevel.High
| RiskLevel.Low => RiskLevel.Medium

/-- One step toward `Low` in the order `Critical > High > Medium > Low`;
a no-op at `Low`. -/
def stepTowardLow : RiskLevel → RiskLevel
| RiskLevel.Critical => RiskLevel.High
| RiskLevel.High => RiskLevel.Medium
| RiskLevel.Medium => RiskLevel.Low
| RiskLevel.Low => RiskLevel.Low

/-- Modelled from the spec: the perturbation as the specification words it
("with probability 0.10, shift the level one step toward Low
(probability 0.5 conditional) or one step toward Critical (otherwise)",
with a no-op at either boundary). Kept for comparison with the
source-derived `perturbLevel`. -/
def perturbLevelSpec (r1 r2 : ℚ) (risk_level : RiskLevel) : RiskLevel :=
if r1 < 0.1 then
  if r2 < 0.5 then stepTowardLow risk_level else stepTowardCritical risk_level
else risk_level

/-- `ai_predictor.calculate_risk_score`, with the clock and the two random
draws injected. Returns `none` when the blood-pressure string does not
parse (the Python `ValueError`). -/
def calculate_risk_score (now r1 r2 : ℚ) (patient : Patient) :
    Option RiskAssessment :=
match parseSystolic patient.vitals.blood_pressure with
| none => none
| some bp_systolic =>
  let age_score := ageScore patient.age
  let hr_score := hrScore patient.vitals.heart_rate
  let bp_score := bpScore bp_systolic
  let temp_score := tempScore patient.vitals.temperature
  let spo2_score := spo2Score patient.vitals.oxygen_saturation
  let dept_score := deptScore patient.department
  let days_in_hospital := (now - patient.admission_date).floor
  let los_score := losScore days_in_hospital
  let score := age_score + hr_score + bp_score + temp_score + spo2_score +
    dept_score + los_score
  let risk_level := perturbLevel r1 r2 (levelOfScore score)
  some ⟨risk_level, min score 15,
    ⟨age_score, hr_score, bp_score, temp_score, spo2_score, dept_score,
      los_score⟩⟩

/-- Sum of the seven factor sub-scores (the unclamped raw score). -/
def sumFactors (f : Factors) : Int :=
f.age_score + f.heart_rate_score + f.blood_pressure_score +
  f.temperature_score + f.oxygen_score + f.department_score +
  f.length_of_stay_score

/-- One department entry of the `calculate_bed_occupancy` result. -/
structure OccEntry where
occupied : Nat
available : Int
total : Nat
occupancy_rate : ℚ
deriving DecidableEq, Repr

/-- The fixed `total_beds` capacity table of `utils.calculate_bed_occupancy`. -/
def total_beds : List (String × Nat) :=
[("Cardiology", 50), ("Neurology", 40), ("Oncology", 60),
  ("Pediatrics", 45), ("Emergency", 30), ("Intensive Care Unit (ICU)", 25),
  ("Maternity", 35), ("Orthopedics", 40), ("Surgery", 30), ("Radiology", 10)]

/-- `utils.calculate_bed_occupancy(patients, department=None)`.
The `department` argument is `none` for Python `None`; a present empty
string is falsy in Python, hence also a no-op. As in the source, the
filtered `dept_patients` list is computed but never used: occupancy is
counted over the full `patients` list. -/
def calculate_bed_occupancy (patients : List Patient)
    (department : Option String) : List (String × OccEntry) :=
let _dept_patients : List Patient :=
  match department with
  | some d => if d ≠ "" then patients.filter (fun p => p.department == d)
      else patients
  | none => patients
let occupied_beds : List (String × Nat) :=
  total_beds.map (fun db =>
    (db.1, (patients.filter
      (fun p => p.department == db.1 && p.status == "Admitted")).length))
total_beds.map (fun db =>
  let occupied : Nat := ((occupied_beds.lookup db.1).getD 0)
  (db.1,
    ⟨occupied, max 0 ((db.2 : Int) - occupied), db.2,
      if (db.2 : Nat) > 0 then ((occupied : ℚ) / db.2) * 100 else 0⟩))

/-- One daily bucket of the `calculate_patient_flow` result. The source
formats the date as a `YYYY-MM-DD` string; the embedding records the day
number instead. -/
structure FlowEntry where
date : Int
admissions : Nat
discharges : Nat
deriving DecidableEq, Repr

/-- `flow_data[n]['admissions'] += 1` / `... ['discharges'] += 1`:
in-place update of the bucket at index `n`. -/
def modifyAt (f : FlowEntry → FlowEntry) : Nat → List FlowEntry → List FlowEntry
| _, [] => []
| 0, e :: es => f e :: es
| n + 1, e :: es => e :: modifyAt f n es

/-- Processing of one patient inside the loop of `calculate_patient_flow`:
bump the admission bucket, then the discharge bucket, each only when the
day-offset from the window start lies in `[0, days]`. -/
def flowStep (start_day : Int) (days : Nat) (flow_data : List FlowEntry)
    (patient : Patient) : List FlowEntry :=
let delta := patient.admission_date.floor - start_day
let flow_data :=
  if 0 ≤ delta ∧ delta ≤ (days : Int) then
    modifyAt (fun e => ⟨e.date, e.admissions + 1, e.discharges⟩)
      delta.toNat flow_data
  else flow_data
match patient.discharge_date with
| none => flow_data
| some dd =>
  let delta2 := dd.floor - start_day
  if 0 ≤ delta2 ∧ delta2 ≤ (days : Int) then
    modifyAt (fun e => ⟨e.date, e.admissions, e.discharges + 1⟩)
      delta2.toNat flow_data
  else flow_data

/-- `utils.calculate_patient_flow(patients, days=7)`, with the clock
injected: `days + 1` daily buckets from `start_date = now - days`,
filled by one pass over the patients. -/
def calculate_patient_flow (patients : List Patient) (now : ℚ)
    (days : Nat) : List FlowEntry :=
let start_date : ℚ := now - days
let flow_data : List FlowEntry :=
  (List.range (days + 1)).map (fun (i : Nat) => ⟨start_date.floor + (i : Int), 0, 0⟩)
patients.foldl (flowStep start_date.floor days) flow_data

/-- Total of the `admissions` counts over all buckets. -/
def sumAdmissions (flow_data : List FlowEntry) : Nat :=
(flow_data.map FlowEntry.admissions).sum

/-- Whether a patient's admission day-offset from the window start lies
in `[0, days]` (the guard of the admission bump in
`calculate_patient_flow`). -/
def inAdmitWindow (now : ℚ) (days : Nat) (p : Patient) : Bool :=
decide (0 ≤ p.admission_date.floor - (now - days : ℚ).floor ∧
  p.admission_date.floor - (now - days : ℚ).floor ≤ (days : Int))

/-- Round half to even (Python `round`), exact on rationals. -/
def roundHalfEven (q : ℚ) : Int :=
let f := q.floor
let r := q - f
if r < 1/2 then f
else if 1/2 < r then f + 1
else if f % 2 = 0 then f else f + 1

/-- Python `round(q, 1)`. -/
def round1 (q : ℚ) : ℚ := (roundHalfEven (q * 10) : ℚ) / 10

/-- Python `round(q, 2)`. -/
def round2 (q : ℚ) : ℚ := (roundHalfEven (q * 100) : ℚ) / 100

/-- `d[k] = d.get(k, 0) + 1` on an insertion-ordered dict. -/
def bump (d : List (String × Nat)) (k : String) : List (String × Nat) :=
match d with
| [] => [(k, 1)]
| (k', v) :: rest => if k' = k then (k', v + 1) :: rest else (k', v) :: bump rest k

/-- Python `sum` over a list whose elements may be `None`: adding `None`
raises `TypeError`, modelled as `none`. -/
def pySum : List (Option ℚ) → Option ℚ
| [] => some 0
| none :: _ => none
| some x :: rest => (pySum rest).map (fun s => x + s)

/-- The populated statistics mapping of `get_patient_statistics`. -/
structure Stats where
total_patients : Nat
admitted : Nat
discharged : Nat
average_age : ℚ
risk_distribution : List (String × Nat)
department_distribution : List (String × Nat)
average_risk_score : ℚ
deriving DecidableEq, Repr

/-- Result of `get_patient_statistics`: the empty dict `{}` for an empty
input, a `TypeError` when the average-risk sum hits a `None` score, or
the populated mapping. -/
inductive StatsResult where
| emptyMap
| error
| stats (s : Stats)
deriving DecidableEq, Repr

/-- `utils.get_patient_statistics(patients)`. The average-risk list
collects `p.get('risk_score', 0)` over patients where the key is present
— including present-but-`None` values, which make the sum fail. -/
def get_patient_statistics (patients : List Patient) : StatsResult :=
if patients.isEmpty then StatsResult.emptyMap
else
  let total_patients := patients.length
  let admitted := (patients.filter (fun p => p.status == "Admitted")).length
  let discharged := total_patients - admitted
  let ages : List ℚ := patients.map (fun p => (p.age : ℚ))
  let avg_age := ages.sum / (ages.length : ℚ)
  let risk_levels := patients.foldl
    (fun d p => bump d (p.risk_level.getD "Unknown")) []
  let dept_dist := patients.foldl (fun d p => bump d p.department) []
  let risk_scores : List (Option ℚ) := patients.filterMap (fun p => p.risk_score)
  let avg_risk : Option ℚ :=
    if risk_scores.isEmpty then some 0
    else (pySum risk_scores).map (fun s => s / (risk_scores.length : ℚ))
  match avg_risk with
  | none => StatsResult.error
  | some ar =>
    StatsResult.stats
      ⟨total_patients, admitted, discharged, round1 avg_age, risk_levels,
        dept_dist, round2 ar⟩

/-- Filter criteria of `utils.filter_patients`: `none` means the key is
absent from the `filters` dict; a present empty string is falsy and also
a no-op. -/
structure Filters where
department : Option String
risk_level : Option String
status : Option String
search : Option String
deriving DecidableEq, Repr

/-- Whether `needle` starts `hay` (character lists). -/
def startsWithL : List Char → List Char → Bool
| [], _ => true
| _ :: _, [] => false
| a :: as, b :: bs => a == b && startsWithL as bs

/-- Python `needle in hay` substring membership on character lists. -/
def containsL (needle : List Char) : List Char → Bool
| [] => startsWithL needle []
| c :: t => startsWithL needle (c :: t) || containsL needle t

/-- Python `needle in hay` on strings. -/
def substrIn (needle hay : String) : Bool :=
containsL needle.toList hay.toList

/-- `utils.filter_patients(patients, filters)`: conjunctive filters applied
in sequence (department, risk level, status, case-insensitive search over
first name, last name, MRN and room). -/
def filter_patients (patients : List Patient) (filters : Filters) :
    List Patient :=
let filtered := patients
let filtered :=
  match filters.department with
  | some d => if d ≠ "" then filtered.filter (fun p => p.department == d)
      else filtered
  | none => filtered
let filtered :=
  match filters.risk_level with
  | some r => if r ≠ "" then filtered.filter (fun p => p.risk_level == some r)
      else filtered
  | none => filtered
let filtered :=
  match filters.status with
  | some s => if s ≠ "" then filtered.filter (fun p => p.status == s)
      else filtered
  | none => filtered
let filtered :=
  match filters.search with
  | some s => if s ≠ "" then
      let search_term := s.toLower
      filtered.filter (fun p =>
        substrIn search_term p.first_name.toLower ||
        substrIn search_term p.last_name.toLower ||
        substrIn search_term p.medical_record_number.toLower ||
        substrIn search_term p.room.toLower)
    else filtered
  | none => filtered
filtered

/-- Per-factor bounds of §4.1: each sub-score non-negative and at most its
per-factor maximum (age 3, heart rate 3, blood pressure 3, temperature 2,
oxygen 3, department 2, length of stay 2). -/
def factorsBounded (f : Factors) : Prop :=
(0 ≤ f.age_score ∧ f.age_score ≤ 3) ∧
  (0 ≤ f.heart_rate_score ∧ f.heart_rate_score ≤ 3) ∧
  (0 ≤ f.blood_pressure_score ∧ f.blood_pressure_score ≤ 3) ∧
  (0 ≤ f.temperature_score ∧ f.temperature_score ≤ 2) ∧
  (0 ≤ f.oxygen_score ∧ f.oxygen_score ≤ 3) ∧
  (0 ≤ f.department_score ∧ f.department_score ≤ 2) ∧
  (0 ≤ f.length_of_stay_score ∧ f.length_of_stay_score ≤ 2)

instance (f : Factors) : Decidable (factorsBounded f) := by
unfold factorsBounded
exact inferInstance

/-- The end-to-end example patient of §8: age 80, heart rate 130, blood
pressure "190/100", temperature 39.0, oxygen saturation 85, ICU, admitted
20 days before the injected `now = 20`. -/
def icuPatient : Patient :=
⟨80, ⟨130, "190/100", 39, 85⟩, "Intensive Care Unit (ICU)", 0, none,
  "Admitted", "", "", "", "", none, none⟩

/-- An unremarkable admitted Radiology patient (admitted at day 0). -/
def radPatient : Patient :=
⟨70, ⟨80, "120/80", 37, 98⟩, "Radiology", 0, none, "Admitted",
  "Alice", "Brown", "MRN00000001", "C101", none, none⟩

/-- A freshly generated, not yet scored patient, exactly as
`patient_generator.generate_patient` shapes it: the `risk_score` key is
present with value `None` (`some none`) and `risk_level` is absent. -/
def unscoredPatient : Patient :=
⟨45, ⟨80, "120/80", 37, 98⟩, "Cardiology", 0, none, "Admitted",
  "John", "Doe", "MRN12345678", "A101", none, some none⟩

theorem ageScore_bounds (age : Int) : 0 ≤ ageScore age ∧ ageScore age ≤ 3 := by
unfold ageScore
split_ifs <;> omega

theorem hrScore_bounds (hr : Int) : 0 ≤ hrScore hr ∧ hrScore hr ≤ 3 := by
unfold hrScore
split_ifs <;> omega

theorem bpScore_bounds (bp : Int) : 0 ≤ bpScore bp ∧ bpScore bp ≤ 3 := by
unfold bpScore
split_ifs <;> omega

theorem tempScore_bounds (t : ℚ) : 0 ≤ tempScore t ∧ tempScore t ≤ 2 := by
unfold tempScore
split_ifs <;> omega

theorem spo2Score_bounds (s : Int) : 0 ≤ spo2Score s ∧ spo2Score s ≤ 3 := by
unfold spo2Score
split_ifs <;> omega

theorem deptScore_bounds (d : String) : 0 ≤ deptScore d ∧ deptScore d ≤ 2 := by
unfold deptScore
split_ifs <;> omega

theorem losScore_bounds (d : Int) : 0 ≤ losScore d ∧ losScore d ≤ 2 := by
unfold losScore
split_ifs <;> omega

/-- C1 counterexample: at `Medium` with a firing first draw (`r1 = 1/20`)
and a second draw below one half (`r2 = 1/4`), the code shifts one step
toward `Critical` (to `High`), while the claim's wording predicts one
step toward `Low`; the two perturbations disagree at this input. -/
theorem C1_counterexample :
    perturbLevel (1/20) (1/4) RiskLevel.Medium = RiskLevel.High ∧
    perturbLevelSpec (1/20) (1/4) RiskLevel.Medium = RiskLevel.Low ∧
    perturbLevel (1/20) (1/4) RiskLevel.Medium ≠
      perturbLevelSpec (1/20) (1/4) RiskLevel.Medium := by
with_unfolding_all decide

/-- C5: the end-to-end example — factor sub-scores (3,3,3,2,3,2,2),
unclamped sum 18, returned `risk_score` 15, and pre-perturbation level
`Critical` (the first draw `r1 = 1` keeps the perturbation from firing). -/
theorem C5_end_to_end :
    calculate_risk_score 20 1 0 icuPatient =
      some ⟨RiskLevel.Critical, 15, ⟨3, 3, 3, 2, 3, 2, 2⟩⟩ ∧
    sumFactors ⟨3, 3, 3, 2, 3, 2, 2⟩ = 18 ∧
    levelOfScore 18 = RiskLevel.Critical := by
with_unfolding_all decide

/-- C7: on the empty collection, `get_patient_statistics` returns the empty
mapping (a result distinct from any populated all-zero mapping) and
`calculate_bed_occupancy` reports every department of the fixed table with
0 occupied and availability equal to the full capacity. -/
theorem C7_empty_population :
    get_patient_statistics [] = StatsResult.emptyMap ∧
    (∀ s, StatsResult.emptyMap ≠ StatsResult.stats s) ∧
    calculate_bed_occupancy [] none =
      [("Cardiology", ⟨0, 50, 50, 0⟩), ("Neurology", ⟨0, 40, 40, 0⟩),
        ("Oncology", ⟨0, 60, 60, 0⟩), ("Pediatrics", ⟨0, 45, 45, 0⟩),
        ("Emergency", ⟨0, 30, 30, 0⟩),
        ("Intensive Care Unit (ICU)", ⟨0, 25, 25, 0⟩),
        ("Maternity", ⟨0, 35, 35, 0⟩), ("Orthopedics", ⟨0, 40, 40, 0⟩),
        ("Surgery", ⟨0, 30, 30, 0⟩), ("Radiology", ⟨0, 10, 10, 0⟩)] :=
⟨rfl, fun _ => StatsResult.noConfusion, by with_unfolding_all decide⟩

/-- C9: the `department` argument of `calculate_bed_occupancy` only feeds
the never-used `dept_patients` list, so the result is identical to the
`None`-argument call for every population and every argument value. -/
theorem C9_department_unused (patients : List Patient)
    (department : Option String) :
    calculate_bed_occupancy patients department =
      calculate_bed_occupancy patients none :=
rfl

/-- C10: a singleton population holding a freshly generated record whose
`risk_score` key is present with value `None` makes
`get_patient_statistics` fail (the average-risk sum hits the `None`)
rather than treat the record as score 0. -/
theorem C10_present_none_risk_score :
    unscoredPatient.risk_score = some none ∧
    get_patient_statistics [unscoredPatient] = StatsResult.error := by
with_unfolding_all decide

/-- C1 (amended): the perturbation fires exactly when the first draw is
below 0.1; conditional on firing, if the level is not `Critical` and the
second draw is below 0.5 it shifts one step toward `Critical`, otherwise
— including at `Critical` with a low second draw — it shifts one step
toward `Low` when the level is not already `Low`, and only at `Low` with
a high second draw is it a no-op. -/
theorem C1_perturbation_amended (r1 r2 : ℚ) (level : RiskLevel) :
    perturbLevel r1 r2 level =
      if r1 < 0.1 then
        if level ≠ RiskLevel.Critical ∧ r2 < 0.5 then stepTowardCritical level
        else if level ≠ RiskLevel.Low then stepTowardLow level
        else level
      else level := by
by_cases h1 : r1 < (0.1 : ℚ) <;> by_cases h2 : r2 < (0.5 : ℚ) <;>
  cases level <;>
  simp [perturbLevel, adjustments, stepTowardCritical, stepTowardLow,
    h1, h2] <;>
  decide

/-- C2 counterexample: a population of eleven admitted Radiology patients
overfills the ten Radiology beds, and the returned entry has
`occupied = 11`, `available = 0`, `total = 10`, so
`occupied + available ≠ total`. -/
theorem C2_counterexample :
    (calculate_bed_occupancy (List.replicate 11 radPatient) none).lookup
        "Radiology" = some ⟨11, 0, 10, 110⟩ ∧
    ¬ ((11 : Int) + 0 = (10 : Int)) := by
with_unfolding_all decide

/-- C2 (amended): every entry returned by `calculate_bed_occupancy`
satisfies `occupied + available = total` provided the admitted count does
not exceed the department's fixed capacity (`occupied ≤ total`). -/
theorem C2_occupied_available_total (patients : List Patient)
    (department : Option String) (dept : String) (e : OccEntry)
    (hmem : (dept, e) ∈ calculate_bed_occupancy patients department)
    (hcap : (e.occupied : Int) ≤ (e.total : Int)) :
    (e.occupied : Int) + e.available = (e.total : Int) := by
unfold calculate_bed_occupancy at hmem
simp only [List.mem_map] at hmem
obtain ⟨db, hdb, heq⟩ := hmem
injection heq with hd he
subst he
simp only at hcap ⊢
omega

theorem C2_witness :
    ("Cardiology", (⟨0, 50, 50, 0⟩ : OccEntry)) ∈
      calculate_bed_occupancy [] none ∧
    ((0 : Nat) : Int) + (50 : Int) = ((50 : Nat) : Int) :=
⟨by with_unfolding_all decide,
  C2_occupied_available_total [] none "Cardiology" ⟨0, 50, 50, 0⟩
    (by with_unfolding_all decide) (by decide)⟩

/-- C3: when the perturbation does not fire (`¬ r1 < 0.1`), the returned
level is the threshold bucket of the unclamped sum of the seven returned
factor sub-scores, and the returned `risk_score` is that sum clamped to
15 — the clamp applies only to the score, after the level is chosen. -/
theorem C3_level_thresholds (now r1 r2 : ℚ) (p : Patient)
    (a : RiskAssessment) (h : calculate_risk_score now r1 r2 p = some a)
    (hr1 : ¬ r1 < 0.1) :
    a.risk_level = levelOfScore (sumFactors a.factors) ∧
    a.risk_score = min (sumFactors a.factors) 15 := by
revert h
unfold calculate_risk_score
cases hbp : parseSystolic p.vitals.blood_pressure with
| none => intro h; simp at h
| some bp =>
  intro h
  simp only [Option.some.injEq] at h
  subst h
  exact ⟨by simp [perturbLevel, hr1, sumFactors], rfl⟩

theorem C3_witness :
    RiskLevel.Critical = levelOfScore (sumFactors ⟨3, 3, 3, 2, 3, 2, 2⟩) ∧
    (15 : Int) = min (sumFactors ⟨3, 3, 3, 2, 3, 2, 2⟩) 15 :=
C3_level_thresholds 20 1 0 icuPatient
  ⟨RiskLevel.Critical, 15, ⟨3, 3, 3, 2, 3, 2, 2⟩⟩
  (by with_unfolding_all decide) (by with_unfolding_all decide)

/-- C4: every returned `risk_score` lies in `[0, 15]` and each of the
seven factor sub-scores is non-negative and bounded by its per-factor
maximum. -/
theorem C4_invariants (now r1 r2 : ℚ) (p : Patient) (a : RiskAssessment)
    (h : calculate_risk_score now r1 r2 p = some a) :
    0 ≤ a.risk_score ∧ a.risk_score ≤ 15 ∧ factorsBounded a.factors := by
revert h
unfold calculate_risk_score
cases hbp : parseSystolic p.vitals.blood_pressure with
| none => intro h; simp at h
| some bp =>
  intro h
  simp only [Option.some.injEq] at h
  subst h
  obtain ⟨a1, a2⟩ := ageScore_bounds p.age
  obtain ⟨b1, b2⟩ := hrScore_bounds p.vitals.heart_rate
  obtain ⟨c1, c2⟩ := bpScore_bounds bp
  obtain ⟨d1, d2⟩ := tempScore_bounds p.vitals.temperature
  obtain ⟨e1, e2⟩ := spo2Score_bounds p.vitals.oxygen_saturation
  obtain ⟨f1, f2⟩ := deptScore_bounds p.department
  obtain ⟨g1, g2⟩ := losScore_bounds ((now - p.admission_date).floor)
  refine ⟨?_, ?_, ⟨a1, a2⟩, ⟨b1, b2⟩, ⟨c1, c2⟩, ⟨d1, d2⟩, ⟨e1, e2⟩,
    ⟨f1, f2⟩, ⟨g1, g2⟩⟩ <;>
    simp only <;> omega

theorem C4_witness :
    0 ≤ (4 : Int) ∧ (4 : Int) ≤ 15 ∧
      factorsBounded ⟨2, 0, 0, 0, 0, 0, 2⟩ :=
C4_invariants 20 1 0 radPatient ⟨RiskLevel.Medium, 4, ⟨2, 0, 0, 0, 0, 0, 2⟩⟩
  (by with_unfolding_all decide)

theorem modifyAt_length (f : FlowEntry → FlowEntry) (n : Nat)
    (l : List FlowEntry) : (modifyAt f n l).length = l.length := by
induction l generalizing n with
| nil => cases n <;> rfl
| cons e es ih =>
  cases n with
  | zero => rfl
  | succ m => simpa [modifyAt] using ih m

theorem sumAdmissions_cons (e : FlowEntry) (es : List FlowEntry) :
    sumAdmissions (e :: es) = e.admissions + sumAdmissions es := rfl

theorem sumAdmissions_modifyAt_adm (n : Nat) (l : List FlowEntry) :
    sumAdmissions
        (modifyAt (fun e => ⟨e.date, e.admissions + 1, e.discharges⟩) n l) =
      sumAdmissions l + if n < l.length then 1 else 0 := by
induction l generalizing n with
| nil => cases n <;> simp [modifyAt, sumAdmissions]
| cons e es ih =>
  cases n with
  | zero =>
    simp only [modifyAt, sumAdmissions_cons, List.length_cons]
    split_ifs <;> omega
  | succ m =>
    simp only [modifyAt, sumAdmissions_cons, ih, List.length_cons]
    split_ifs <;> omega

theorem sumAdmissions_modifyAt_dis (n : Nat) (l : List FlowEntry) :
    sumAdmissions
        (modifyAt (fun e => ⟨e.date, e.admissions, e.discharges + 1⟩) n l) =
      sumAdmissions l := by
induction l generalizing n with
| nil => cases n <;> rfl
| cons e es ih =>
  cases n with
  | zero => rfl
  | succ m => simp [modifyAt, sumAdmissions_cons, ih]

theorem flowStep_length (s : Int) (days : Nat) (l : List FlowEntry)
    (p : Patient) : (flowStep s days l p).length = l.length := by
unfold flowStep
cases hd : p.discharge_date <;> dsimp only <;> split_ifs <;>
  simp [modifyAt_length]

theorem flowStep_sumAdmissions (s : Int) (days : Nat) (l : List FlowEntry)
    (p : Patient) (hl : l.length = days + 1) :
    sumAdmissions (flowStep s days l p) =
      sumAdmissions l +
        if 0 ≤ p.admission_date.floor - s ∧
            p.admission_date.floor - s ≤ (days : Int)
        then 1 else 0 := by
unfold flowStep
cases hd : p.discharge_date with
| none =>
  dsimp only
  split_ifs <;>
    try simp only [sumAdmissions_modifyAt_adm]
  all_goals try split_ifs
  all_goals omega
| some dd =>
  dsimp only
  split_ifs <;>
    try simp only [sumAdmissions_modifyAt_dis, sumAdmissions_modifyAt_adm]
  all_goals try split_ifs
  all_goals omega

theorem foldl_flowStep_length (s : Int) (days : Nat) (ps : List Patient)
    (l : List FlowEntry) :
    (ps.foldl (flowStep s days) l).length = l.length := by
induction ps generalizing l with
| nil => rfl
| cons p ps ih => rw [List.foldl_cons, ih, flowStep_length]

theorem sumAdmissions_map_zero {α : Type} (f : α → Int) (l : List α) :
    sumAdmissions (l.map (fun i => ⟨f i, 0, 0⟩)) = 0 := by
induction l with
| nil => rfl
| cons a t ih => simpa [sumAdmissions_cons] using ih

theorem foldl_flowStep_sumAdmissions (s : Int) (days : Nat)
    (ps : List Patient) (l : List FlowEntry) (hl : l.length = days + 1) :
    sumAdmissions (ps.foldl (flowStep s days) l) =
      sumAdmissions l +
        (ps.filter (fun p =>
          decide (0 ≤ p.admission_date.floor - s ∧
            p.admission_date.floor - s ≤ (days : Int)))).length := by
induction ps generalizing l with
| nil => simp
| cons p ps ih =>
  rw [List.foldl_cons,
    ih (flowStep s days l p) (by rw [flowStep_length]; exact hl),
    flowStep_sumAdmissions s days l p hl, List.filter_cons]
  by_cases h : 0 ≤ p.admission_date.floor - s ∧
      p.admission_date.floor - s ≤ (days : Int)
  · rw [if_pos h, if_pos (decide_eq_true h)]
    simp only [List.length_cons]
    omega
  · rw [if_neg h, if_neg (by simpa using h)]
    omega

/-- C6: for a 7-day window, `calculate_patient_flow` returns 8 daily
buckets (both endpoints inclusive), and the admissions counts over all
buckets sum to the number of input patients whose admission day-offset
from the window start lies in `[0, 7]`; patients outside that range
contribute 0 (silently dropped, never an error). -/
theorem C6_patient_flow (patients : List Patient) (now : ℚ) :
    (calculate_patient_flow patients now 7).length = 8 ∧
    sumAdmissions (calculate_patient_flow patients now 7) =
      (patients.filter (inAdmitWindow now 7)).length := by
constructor
· unfold calculate_patient_flow
  rw [foldl_flowStep_length, List.length_map, List.length_range]
· unfold calculate_patient_flow
  rw [foldl_flowStep_sumAdmissions _ _ _ _
      (by rw [List.length_map, List.length_range]),
    sumAdmissions_map_zero, Nat.zero_add]
  rfl

/-- C8: filtering by department "Cardiology" and then by risk level
"High" gives the same list as one `filter_patients` call carrying both
criteria, in either grouping — the filters are conjunctive. -/
theorem C8_filter_conjunctive (patients : List Patient) :
    filter_patients (filter_patients patients
        ⟨some "Cardiology", none, none, none⟩)
        ⟨none, some "High", none, none⟩ =
      filter_patients patients
        ⟨some "Cardiology", some "High", none, none⟩ ∧
    filter_patients (filter_patients patients
        ⟨none, some "High", none, none⟩)
        ⟨some "Cardiology", none, none, none⟩ =
      filter_patients patients
        ⟨some "Cardiology", some "High", none, none⟩ := by
constructor
· rfl
· show List.filter (fun p => p.department == "Cardiology")
      (List.filter (fun p => p.risk_level == some "High") patients) =
    List.filter (fun p => p.risk_level == some "High")
      (List.filter (fun p => p.department == "Cardiology") patients)
  rw [List.filter_filter, List.filter_filter]
  exact List.filter_congr (fun a _ => Bool.and_comm _ _)

end MediScope
